import Mathlib

set_option autoImplicit false

/-!
Shallow embedding of the core decision logic of `setupRTMP6.py` (RTMP Stream
Setup Assistant): the Process Probe (`find_process_using_port`,
`kill_process_by_pid`), the Port Conflict Resolver (`handle_port_conflict`),
the Device Selector (`parse_device_line` classification,
`select_device_from_list`), the server start orchestration
(`start_mona_server`) and the fatal-exit helper (`exit_with_error`).

External effects (psutil queries, process kills, interactive prompts, process
spawns) are modelled by explicit environment records supplying the result of
each external call; console output is modelled only where a property refers to
it (as a list of emitted core message texts, markup stripped).
-/

namespace RTMP

/-! ### Python `int()` parsing

`handle_port_conflict` calls `int(port_str)`.  We model CPython integer
parsing of a decimal literal: surrounding whitespace is stripped, an optional
single sign is allowed, and the body is ASCII digits with single underscores
permitted between digits (not leading, trailing or doubled).  Unicode digits
accepted by CPython are outside the model. -/

/-- Digits after the first one: `digit | _ digit` repeated.  An underscore must
be followed by a digit, and a trailing underscore is rejected. -/
def pyDigitsRest : List Char → Nat → Option Nat
  | [], acc => some acc
  | '_' :: c :: rest, acc =>
    if c.isDigit then pyDigitsRest rest (acc * 10 + (c.toNat - 48)) else none
  | c :: rest, acc =>
    if c.isDigit then pyDigitsRest rest (acc * 10 + (c.toNat - 48)) else none

/-- The unsigned body of a Python decimal int literal: a first digit, then
`pyDigitsRest`. -/
def pyUnsigned : List Char → Option Nat
  | [] => none
  | c :: rest => if c.isDigit then pyDigitsRest rest (c.toNat - 48) else none

/-- Strip leading and trailing whitespace, as `int()` does before parsing. -/
def pyStrip (cs : List Char) : List Char :=
  ((cs.dropWhile Char.isWhitespace).reverse.dropWhile Char.isWhitespace).reverse

/-- `int(s)` for a decimal string `s`: `some n` when CPython would return `n`,
`none` when it would raise `ValueError`. -/
def pyInt? (s : String) : Option Int :=
  match pyStrip s.data with
  | '+' :: rest => (pyUnsigned rest).map Int.ofNat
  | '-' :: rest => (pyUnsigned rest).map (fun n => -(n : Int))
  | cs => (pyUnsigned cs).map Int.ofNat

/-- Lines 746-751 of `handle_port_conflict`:
`try: port = int(port_str); assert 0 < port <= 65535`
`except (ValueError, AssertionError): print invalid-port message; port = 1935`.
Returns the port actually used and whether the invalid-port message was
printed. -/
def parsePort (port_str : String) : Int × Bool :=
  match pyInt? port_str with
  | some p => if 0 < p ∧ p ≤ 65535 then (p, false) else (1935, true)
  | none => (1935, true)

/-! ### Process Probe: `find_process_using_port` (lines 704-718) -/

/-- Result of `psutil.Process(c.pid)` followed by `p.name()` inside the scan
loop: the name, or one of the two exceptions the loop catches and skips. -/
inductive ProcLookup where
  | ok (name : String)
  | noSuchProcess
  | accessDenied
deriving DecidableEq

/-- One entry of `psutil.net_connections(kind="inet")`: local port, connection
status string, owning pid. -/
structure Conn where
  laddrPort : Int
  status : String
  pid : Int
deriving DecidableEq

/-- `psutil.CONN_LISTEN`. -/
def CONN_LISTEN : String := "LISTEN"

/-- Environment for one probe call: the socket table (`none` models
`psutil.Error` / `OSError` / `AttributeError` raised by the enumeration call,
which the function catches and converts to no result), and the per-pid process
lookup. -/
structure ProbeEnv where
  netConnections : Option (List Conn)
  proc : Int → ProcLookup

/-- The `for c in psutil.net_connections(...)` loop of
`find_process_using_port`: first entry with matching local port and LISTEN
status whose owning process can be resolved; entries whose process vanished or
is inaccessible are skipped. -/
def findLoop (env : ProbeEnv) (port : Int) : List Conn → Option (Int × String)
  | [] => none
  | c :: rest =>
    if c.laddrPort == port && c.status == CONN_LISTEN then
      match env.proc c.pid with
      | .ok name => some (c.pid, name)
      | _ => findLoop env port rest
    else findLoop env port rest

/-- `find_process_using_port` (lines 704-718): out-of-range port or failed
enumeration yields no result. -/
def find_process_using_port (env : ProbeEnv) (port : Int) : Option (Int × String) :=
  if 0 < port ∧ port ≤ 65535 then
    match env.netConnections with
    | some conns => findLoop env port conns
    | none => none
  else none

/-! ### Process Probe: `kill_process_by_pid` (lines 721-742) -/

/-- Outcome of one psutil call inside `kill_process_by_pid`: success,
`psutil.NoSuchProcess` (caught, treated as "already gone"), or any other
exception (caught by the generic handler, reported as failure). -/
inductive PsCall where
  | ok
  | noSuchProcess
  | otherError
deriving DecidableEq

/-- Outcome of `p.wait(timeout=1)`: the process exited, the wait timed out
(`psutil.TimeoutExpired`, process still lingering), the process turned out to
be gone, or some other exception. -/
inductive WaitCall where
  | exited
  | timeoutExpired
  | noSuchProcess
  | otherError
deriving DecidableEq

/-- Environment for one kill call: the platform name and the behaviour of the
`psutil.Process`, `p.kill()` and `p.wait(timeout=1)` calls at each pid. -/
structure KillEnv where
  platformSystem : String
  processOf : Int → PsCall
  killCall : Int → PsCall
  waitCall : Int → WaitCall

/-- `kill_process_by_pid` (lines 721-742).  Pid 0 on Windows is refused before
any psutil call.  `NoSuchProcess` anywhere in the `try` block yields success;
a wait timeout only prints a linger warning and still yields success; any
other exception yields failure. -/
def kill_process_by_pid (env : KillEnv) (pid : Int) (_name : String) : Bool :=
  if pid == 0 && env.platformSystem == "Windows" then false
  else
    match env.processOf pid with
    | .noSuchProcess => true
    | .otherError => false
    | .ok =>
      match env.killCall pid with
      | .noSuchProcess => true
      | .otherError => false
      | .ok =>
        match env.waitCall pid with
        | .exited => true
        | .timeoutExpired => true
        | .noSuchProcess => true
        | .otherError => false

/-- Whether the control flow of `kill_process_by_pid` reaches the `p.kill()`
call: it does exactly when the pid-0-on-Windows guard does not fire and
constructing `psutil.Process(pid)` succeeds. -/
def killCallReached (env : KillEnv) (pid : Int) : Bool :=
  if pid == 0 && env.platformSystem == "Windows" then false
  else
    match env.processOf pid with
    | .ok => true
    | _ => false

/-! ### Fatal exit: `exit_with_error` (lines 963-968) -/

/-- Observable behaviour of a process exit triggered by `exit_with_error`:
the error message presented, whether an acknowledgment keypress (`input()`)
was required before exiting, and the exit status passed to `sys.exit`. -/
structure ExitBehavior where
  message : String
  awaitsKeypress : Bool
  code : Nat
deriving DecidableEq

/-- `exit_with_error` (lines 963-968): prints the error, waits for `input()`,
then `sys.exit(1)`. -/
def exit_with_error (message : String) : ExitBehavior :=
  { message := message, awaitsKeypress := true, code := 1 }

/-! ### Port Conflict Resolver: `handle_port_conflict` (lines 745-773) -/

/-- Result of one resolver invocation: the returned pair
`Tuple[bool, Optional[int]]`, or a process exit through `exit_with_error`. -/
inductive ConflictResult where
  | ret (ok : Bool) (occupant : Option Int)
  | fatal (e : ExitBehavior)
deriving DecidableEq

/-- Environment for one resolver invocation: the probe result per port
(`find_process_using_port`), the `ForceKillConflictingPortProcess` policy
flag, the operator answers to the kill prompt and the skip prompt, and the
result of `kill_process_by_pid` per pid and name. -/
structure ConflictEnv where
  probe : Int → Option (Int × String)
  forceKillPortProcess : Bool
  confirmKill : Bool
  confirmSkip : Bool
  kill : Int → String → Bool

/-- Lines 752-773 of `handle_port_conflict`, after the port string has been
parsed: query the probe; no occupant yields `(True, None)`; with an occupant,
the kill path (policy flag or confirmed prompt) returns
`(killed, None if killed else pid)`; declining the kill but confirming the
skip prompt returns `(False, pid)`; declining both calls `exit_with_error`. -/
def resolveConflictAt (env : ConflictEnv) (port : Int) : ConflictResult :=
  match env.probe port with
  | none => .ret true none
  | some (pid, name) =>
    if env.forceKillPortProcess || env.confirmKill then
      let killed := env.kill pid name
      .ret killed (if killed then none else some pid)
    else if env.confirmSkip then
      .ret false (some pid)
    else
      .fatal (exit_with_error ("Port " ++ toString port ++ " conflict unresolved."))

/-- `handle_port_conflict` (lines 745-773): parse the port string
(substituting 1935 on failure, lines 746-751), then resolve at that port. -/
def handle_port_conflict (env : ConflictEnv) (port_str : String) : ConflictResult :=
  resolveConflictAt env (parsePort port_str).1

/-! ### Device Bridge Client: connection-kind classification
(`parse_device_line`, lines 588-612) -/

/-- The connection kinds assigned by `parse_device_line`. -/
inductive ConnKind where
  | usb
  | wifi
  | emulator
deriving DecidableEq

/-- Python substring test `needle in hay` on character lists. -/
def strContains (needle : List Char) : List Char → Bool
  | [] => needle.isEmpty
  | c :: t => needle.isPrefixOf (c :: t) || strContains needle t

/-- Lines 593-600 of `parse_device_line`: the connection kind as a function of
the device identifier.  `did.split(":")[0]` is the segment before the first
colon, and the character-class test is membership in `"0123456789."`.  (The
icon paired with each kind in the source is omitted: it is determined by the
kind.) -/
def classify_connection (did : List Char) : ConnKind :=
  if strContains "_adb-tls-connect".data did then .wifi
  else if did.contains ':' &&
      (did.takeWhile (fun c => c != ':')).all (fun c => "0123456789.".data.contains c) then
    .wifi
  else if strContains "emulator".data did then .emulator
  else .usb

/-- Split a character list on a separator character, like Python
`str.split(sep)`: the list of (possibly empty) segments. -/
def splitOnChar (sep : Char) : List Char → List (List Char)
  | [] => [[]]
  | c :: t =>
    if c == sep then [] :: splitOnChar sep t
    else
      match splitOnChar sep t with
      | g :: gs => (c :: g) :: gs
      | [] => [[c]]

/-- Modelled from the spec: the phrase "beginning with a dotted-quad-with-port
prefix" of the classification rule, read literally — the identifier starts
with four nonempty all-digit groups separated by dots, then a colon, then at
least one port digit. -/
def specDottedQuadWithPort (did : List Char) : Bool :=
  match did.dropWhile (fun c => c != ':') with
  | ':' :: port =>
    let groups := splitOnChar '.' (did.takeWhile (fun c => c != ':'))
    groups.length == 4
      && groups.all (fun g => !g.isEmpty && g.all Char.isDigit)
      && !(port.takeWhile Char.isDigit).isEmpty
  | _ => false

/-- Modelled from the spec: the whole classification rule as the claim states
it — wireless pairing marker or dotted-quad-with-port start yields wifi, else
emulator substring yields emulator, else usb. -/
def spec_classify (did : List Char) : ConnKind :=
  if strContains "_adb-tls-connect".data did || specDottedQuadWithPort did then .wifi
  else if strContains "emulator".data did then .emulator
  else .usb

/-- The classification rule as amended: the second wifi condition is the
character-class test the code performs (a colon is present and every character
before the first colon is a decimal digit or a dot) rather than a strict
dotted-quad shape. -/
def spec_classify_amended (did : List Char) : ConnKind :=
  if strContains "_adb-tls-connect".data did ||
      (did.contains ':' &&
        (did.takeWhile (fun c => c != ':')).all (fun c => c.isDigit || c == '.')) then
    .wifi
  else if strContains "emulator".data did then .emulator
  else .usb

/-! ### Device Selector: `select_device_from_list` (lines 615-701) -/

/-- One parsed device record (`parse_device_line` output): identifier, status
token (`device` / `offline` / `unauthorized`), raw detail, connection kind
label, icon, display name. -/
structure Device where
  id : String
  status : String
  details : String
  connection : String
  icon : String
  name : String
deriving DecidableEq

/-- What happens at the `Prompt.ask` call: the operator enters a string (rich
only returns strings from the offered choices), or interrupts
(`KeyboardInterrupt`). -/
inductive PromptEvent where
  | entered (s : String)
  | interrupted
deriving DecidableEq

/-- Environment for one selector invocation: the prompt event, consulted only
when the enumerated choice prompt is reached. -/
structure SelectEnv where
  promptEvent : PromptEvent

/-- Result of one selector invocation: the returned `Optional` device, a
process exit (`sys.exit(0)` on interrupt), or an uncaught exception (the
`cmap[s]` lookup with a string outside the choices; unreachable under the
rich prompt contract). -/
inductive SelectOutcome where
  | ret (d : Option Device)
  | exitProgram (code : Nat)
  | raised
deriving DecidableEq

/-- The `cmap` lookup of lines 685-695: choice strings are `"1"` to `"N"`
mapped to the selectable devices in order. -/
def cmapLookup (sel : List Device) (s : String) : Option Device :=
  sel.enum.findSome? (fun p => if s == toString (p.1 + 1) then some p.2 else none)

/-- Lines 660-701 of `select_device_from_list`, after the selectable subset
`sel` has been computed and the devices table printed: the no-selectable
diagnostics, the auto-select-single branch, and the enumerated choice prompt
with its `KeyboardInterrupt` handler.  Second component: the core texts of the
panel and status messages emitted (markup and the device table stripped). -/
def selectFromSel (env : SelectEnv) (devices sel : List Device)
    (autoSelectSingle : Bool) : SelectOutcome × List String :=
  match sel, autoSelectSingle with
  | [], _ =>
    (.ret none,
      ["No operational devices."]
        ++ (if devices.any (fun d => d.status == "unauthorized") then
              ["Check auth prompt."] else [])
        ++ (if devices.any (fun d => d.status == "offline") then
              ["Reconnect offline device."] else []))
  | [d], true => (.ret (some d), ["Auto-selecting: " ++ d.name])
  | sel, _ =>
    match env.promptEvent with
    | .interrupted => (.exitProgram 0, ["Multiple devices. Select one:", "Cancelled."])
    | .entered s =>
      match cmapLookup sel s with
      | some d => (.ret (some d), ["Multiple devices. Select one:", "Selected: " ++ d.name])
      | none => (.raised, ["Multiple devices. Select one:"])

/-- `select_device_from_list` (lines 615-701): compute the selectable subset
(status token `device`, the "connected" status), report when no devices were
found at all, otherwise continue with `selectFromSel`. -/
def select_device_from_list (env : SelectEnv) (devices : List Device)
    (autoSelectSingle : Bool) : SelectOutcome × List String :=
  if devices.isEmpty then (.ret none, ["No devices found."])
  else selectFromSel env devices (devices.filter (fun d => d.status == "device"))
    autoSelectSingle

/-! ### Server start orchestration: `start_mona_server` (lines 882-950) -/

/-- Result of `start_mona_server`: the returned `Optional[bool]`
(`some true` started or already running, `some false` failed, `none`
unconfirmed), or a process exit propagated from the resolver
(`SystemExit` is not caught by the `except Exception` handler). -/
inductive MonaOutcome where
  | ret (r : Option Bool)
  | fatal (e : ExitBehavior)
deriving DecidableEq

/-- Environment for one `start_mona_server` call: the configured port string,
validity of the configured server path, the result of the k-th
`check_monaserver_process` health check, the environment seen by the k-th
`handle_port_conflict` invocation (index 0 before the spawn, index 1 for the
mandatory re-check after it), and whether the `subprocess.Popen` spawn call
succeeds. -/
structure MonaEnv where
  rtmpPort : String
  monaPathValid : Bool
  checkMona : Nat → Bool
  cenv : Nat → ConflictEnv
  spawnOk : Bool

/-- `start_mona_server` (lines 882-950).  Health check first (already running
yields success without spawning); invalid path yields failure; the resolver
must report a clear port before the spawn; a spawn exception is caught and
yields failure; after the spawn and settle delay, a failed health re-check
re-runs the resolver with the state observed at that moment (`cenv 1`), and
the three diagnostic branches that follow all return `None` (unconfirmed) —
but each of them evaluates `int(config.rtmp_port)` unguarded, so a port string
that does not parse raises `ValueError` there, which the broad `except`
handler converts to `False`.  (The branches differ only in the warning text
printed, via further probe and health-check calls; the text is not
modelled.) -/
def start_mona_server (env : MonaEnv) : MonaOutcome :=
  if env.checkMona 0 then .ret (some true)
  else if !env.monaPathValid then .ret (some false)
  else
    match handle_port_conflict (env.cenv 0) env.rtmpPort with
    | .fatal e => .fatal e
    | .ret portClear _ =>
      if !portClear then .ret (some false)
      else if !env.spawnOk then .ret (some false)
      else if env.checkMona 1 then .ret (some true)
      else
        match handle_port_conflict (env.cenv 1) env.rtmpPort with
        | .fatal e => .fatal e
        | .ret _ _ =>
          match pyInt? env.rtmpPort with
          | none => .ret (some false)
          | some _ => .ret none

/-! ### Concrete environments used by counterexamples and witnesses -/

/-- A kill environment in which every psutil call succeeds but the exit wait
times out: the kill signal is delivered and the process lingers past the
1-time-unit confirmation window. -/
def lingerKillEnv : KillEnv :=
  { platformSystem := "Windows"
    processOf := fun _ => .ok
    killCall := fun _ => .ok
    waitCall := fun _ => .timeoutExpired }

/-- A resolver environment: port 1935 occupied by pid 500 (`OldServer`),
force-kill policy on, kills executed through `kill_process_by_pid` over
`lingerKillEnv`. -/
def lingerConflictEnv : ConflictEnv :=
  { probe := fun port => if port == 1935 then some (500, "OldServer") else none
    forceKillPortProcess := true
    confirmKill := false
    confirmSkip := false
    kill := fun pid name => kill_process_by_pid lingerKillEnv pid name }

/-- A kill environment in which constructing `psutil.Process(pid)` raises a
non-`NoSuchProcess` exception, so the kill fails. -/
def failKillEnv : KillEnv :=
  { platformSystem := "Windows"
    processOf := fun _ => .otherError
    killCall := fun _ => .ok
    waitCall := fun _ => .exited }

/-- A resolver environment: port 1935 occupied by pid 500 (`OldServer`),
force-kill policy on, kills executed through `kill_process_by_pid` over
`failKillEnv` (so they fail), and the operator never asked nor agreeing to
proceed (`confirmSkip := false`). -/
def failKillConflictEnv : ConflictEnv :=
  { probe := fun port => if port == 1935 then some (500, "OldServer") else none
    forceKillPortProcess := true
    confirmKill := false
    confirmSkip := false
    kill := fun pid name => kill_process_by_pid failKillEnv pid name }

/-- A resolver environment that finds no occupant on any port. -/
def freeConflictEnv : ConflictEnv :=
  { probe := fun _ => none
    forceKillPortProcess := true
    confirmKill := false
    confirmSkip := false
    kill := fun _ _ => false }

/-- A server-start environment with a non-numeric configured port string:
the server path is valid, no health check ever detects the server, the spawn
call succeeds, and both resolver invocations find the port free. -/
def badPortMonaEnv : MonaEnv :=
  { rtmpPort := "x"
    monaPathValid := true
    checkMona := fun _ => false
    cenv := fun _ => freeConflictEnv
    spawnOk := true }

/-- The same server-start scenario with a numeric port string. -/
def goodPortMonaEnv : MonaEnv :=
  { rtmpPort := "1935"
    monaPathValid := true
    checkMona := fun _ => false
    cenv := fun _ => freeConflictEnv
    spawnOk := true }

/-- A device record with a given identifier and status. -/
def mkDevice (i st : String) : Device :=
  { id := i, status := st, details := "", connection := "USB", icon := "", name := "Unknown" }

/-! ### Supporting lemmas -/

/-- Membership in the character class string `"0123456789."` coincides with
being an ASCII digit or the dot. -/
theorem contains_digitDot (c : Char) :
    ("0123456789.".data.contains c) = (c.isDigit || c == '.') := by
  have hd : "0123456789.".data = ['0','1','2','3','4','5','6','7','8','9','.'] := rfl
  rw [hd, Bool.eq_iff_iff]
  constructor
  · intro h
    have hm : c ∈ ['0','1','2','3','4','5','6','7','8','9','.'] := by simpa using h
    fin_cases hm <;> decide
  · intro h
    rcases Bool.or_eq_true_iff.mp h with hdig | hdot
    · unfold Char.isDigit at hdig
      rw [Bool.and_eq_true, decide_eq_true_eq, decide_eq_true_eq] at hdig
      obtain ⟨h1, h2⟩ := hdig
      have hlo : 48 ≤ c.toNat := h1
      have hhi : c.toNat ≤ 57 := h2
      have hm : c ∈ ['0','1','2','3','4','5','6','7','8','9','.'] := by
        interval_cases hn : c.toNat
        · have hc : c = '0' := Char.ext (UInt32.ext (by simpa [Char.toNat] using hn))
          simp [hc]
        · have hc : c = '1' := Char.ext (UInt32.ext (by simpa [Char.toNat] using hn))
          simp [hc]
        · have hc : c = '2' := Char.ext (UInt32.ext (by simpa [Char.toNat] using hn))
          simp [hc]
        · have hc : c = '3' := Char.ext (UInt32.ext (by simpa [Char.toNat] using hn))
          simp [hc]
        · have hc : c = '4' := Char.ext (UInt32.ext (by simpa [Char.toNat] using hn))
          simp [hc]
        · have hc : c = '5' := Char.ext (UInt32.ext (by simpa [Char.toNat] using hn))
          simp [hc]
        · have hc : c = '6' := Char.ext (UInt32.ext (by simpa [Char.toNat] using hn))
          simp [hc]
        · have hc : c = '7' := Char.ext (UInt32.ext (by simpa [Char.toNat] using hn))
          simp [hc]
        · have hc : c = '8' := Char.ext (UInt32.ext (by simpa [Char.toNat] using hn))
          simp [hc]
        · have hc : c = '9' := Char.ext (UInt32.ext (by simpa [Char.toNat] using hn))
          simp [hc]
      simpa using hm
    · have hc : c = '.' := by simpa using hdot
      rw [hc]; decide

/-! ### Claim theorems -/

/-- C6 counterexample: the identifier `1234:5555` has no wireless pairing
marker, does not begin with a dotted-quad-with-port (the segment before the
colon is a single number, not four dot-separated groups) and has no emulator
substring, so the claim classifies it as usb; the code classifies it as wifi,
because its colon test only requires the characters before the first colon to
be digits or dots. -/
theorem classify_dotted_quad_counterexample :
    classify_connection "1234:5555".data = ConnKind.wifi ∧
      spec_classify "1234:5555".data = ConnKind.usb := by
  constructor <;> decide

/-- C6 (amended): connection-kind classification is a pure function of the
identifier: an identifier containing the wireless pairing marker, or
containing a colon with every character before the first colon a decimal
digit or a dot, classifies as wifi; otherwise one containing the emulator
substring classifies as emulator; every other identifier classifies as
usb. -/
theorem classify_connection_amended_spec (did : List Char) :
    classify_connection did = spec_classify_amended did := by
  unfold classify_connection spec_classify_amended
  rw [show (fun c : Char => "0123456789.".data.contains c)
      = (fun c : Char => c.isDigit || c == '.') from funext contains_digitDot]
  cases h : strContains "_adb-tls-connect".data did <;> simp [h]

/-- C10: whenever `handle_port_conflict` returns a pair (rather than
exiting), the occupant component is `None` exactly when the success flag is
`True`. -/
theorem handle_ret_occupant_iff (env : ConflictEnv) (s : String) (ok : Bool)
    (occ : Option Int) (h : handle_port_conflict env s = .ret ok occ) :
    occ = none ↔ ok = true := by
  unfold handle_port_conflict resolveConflictAt at h
  rcases hp : env.probe (parsePort s).1 with _ | ⟨pid, name⟩ <;> rw [hp] at h <;>
    dsimp only at h
  · injection h with h1 h2
    subst h1; subst h2
    simp
  · by_cases hk : (env.forceKillPortProcess || env.confirmKill) = true
    · rw [if_pos hk] at h
      cases hkill : env.kill pid name <;> rw [hkill] at h <;> injection h with h1 h2 <;>
        subst h1 <;> subst h2 <;> simp
    · rw [if_neg hk] at h
      by_cases hs : env.confirmSkip = true
      · rw [if_pos hs] at h
        injection h with h1 h2
        subst h1; subst h2
        simp
      · rw [if_neg hs] at h
        exact absurd h (by simp)

/-- C10 witness: the kill-failure scenario returns `(False, Some 500)`, and
the equivalence holds there. -/
theorem handle_ret_occupant_iff_witness :
    (some 500 : Option Int) = none ↔ false = true :=
  handle_ret_occupant_iff failKillConflictEnv "1935" false (some 500) (by decide)

/-- C3: a port string that does not parse to an integer in (0,65535] does not
make the resolver raise: the invalid value is logged, the documented default
1935 is substituted, and the check continues at port 1935. -/
theorem handle_invalid_port_defaults (s : String)
    (h : ∀ p : Int, pyInt? s = some p → ¬(0 < p ∧ p ≤ 65535)) :
    parsePort s = (1935, true) ∧
      ∀ env : ConflictEnv, handle_port_conflict env s = resolveConflictAt env 1935 := by
  have hp : parsePort s = (1935, true) := by
    unfold parsePort
    cases hi : pyInt? s with
    | none => rfl
    | some p =>
      dsimp only
      rw [if_neg (h p hi)]
  refine ⟨hp, fun env => ?_⟩
  unfold handle_port_conflict
  rw [hp]

/-- C3 witness: `70000` parses but is out of range, so the default is used
and the resolver continues at 1935. -/
theorem handle_invalid_port_defaults_witness :
    parsePort "70000" = (1935, true) ∧
      ∀ env : ConflictEnv, handle_port_conflict env "70000" = resolveConflictAt env 1935 :=
  handle_invalid_port_defaults "70000" (by
    intro p hp
    rw [show pyInt? "70000" = some 70000 from by decide, Option.some.injEq] at hp
    subst hp
    decide)

/-- A kill environment in which the process is already gone:
`psutil.Process(pid)` raises `NoSuchProcess`. -/
def goneKillEnv : KillEnv :=
  { platformSystem := "Linux"
    processOf := fun _ => .noSuchProcess
    killCall := fun _ => .ok
    waitCall := fun _ => .exited }

/-- C1 counterexample: port 1935 is occupied by pid 500, the kill path is
taken, the kill signal is delivered but the exit confirmation times out with
the process still lingering — and the resolver nevertheless reports the
resolved outcome `(True, None)`.  The claim requires that a timed-out kill
confirmation never yields `resolved`. -/
theorem resolved_despite_linger_counterexample :
    lingerConflictEnv.probe 1935 = some (500, "OldServer") ∧
      lingerKillEnv.waitCall 500 = WaitCall.timeoutExpired ∧
      kill_process_by_pid lingerKillEnv 500 "OldServer" = true ∧
      handle_port_conflict lingerConflictEnv "1935" = .ret true none := by
  refine ⟨by decide, by decide, by decide, by decide⟩

/-- C1 (amended): the resolved outcome `(True, None)` reports that the kill
call returned success, which includes the case where the exit confirmation
timed out with the process still lingering: whenever the kill path is taken
and the kill sequence reaches a timed-out wait, the resolver reports
resolved.  `resolved` therefore certifies signal delivery, not that no live
occupant remains bound to the port. -/
theorem resolved_reports_kill_success (kenv : KillEnv) (cenv : ConflictEnv)
    (s : String) (pid : Int) (name : String)
    (hfn : cenv.kill = fun p n => kill_process_by_pid kenv p n)
    (hprobe : cenv.probe (parsePort s).1 = some (pid, name))
    (hpath : (cenv.forceKillPortProcess || cenv.confirmKill) = true)
    (hguard : (pid == 0 && kenv.platformSystem == "Windows") = false)
    (hproc : kenv.processOf pid = .ok)
    (hkill : kenv.killCall pid = .ok)
    (hwait : kenv.waitCall pid = .timeoutExpired) :
    handle_port_conflict cenv s = .ret true none := by
  have hk : cenv.kill pid name = true := by
    rw [hfn]
    simp only [kill_process_by_pid, hguard, hproc, hkill, hwait]
    rfl
  simp [handle_port_conflict, resolveConflictAt, hprobe, hpath, hk]

/-- C1 amended witness: the lingering-kill scenario reports resolved. -/
theorem resolved_reports_kill_success_witness :
    handle_port_conflict lingerConflictEnv "1935" = .ret true none :=
  resolved_reports_kill_success lingerKillEnv lingerConflictEnv "1935" 500 "OldServer"
    rfl (by decide) (by decide) (by decide) (by decide) (by decide) (by decide)

/-- C2 counterexample: port 1935 is occupied by pid 500, the kill path is
taken (force-kill policy on), the terminate attempt fails — and the resolver
returns the skipped outcome `(False, Some 500)` without ever consulting the
operator and without halting.  The claim requires a `fatal` outcome here,
since the operator never agreed to proceed (`confirmSkip` is false and the
skip prompt is not even reached). -/
theorem kill_failure_not_fatal_counterexample :
    failKillConflictEnv.confirmSkip = false ∧
      kill_process_by_pid failKillEnv 500 "OldServer" = false ∧
      handle_port_conflict failKillConflictEnv "1935" = .ret false (some 500) := by
  refine ⟨by decide, by decide, by decide⟩

/-- C2 (amended): in the occupied state, when the kill path is taken and the
terminate attempt fails, the outcome is unconditionally `skipped` with the
occupant pid carried in the result — the operator is not consulted again and
the run is not halted. -/
theorem kill_failure_returns_skipped (env : ConflictEnv) (s : String)
    (pid : Int) (name : String)
    (hprobe : env.probe (parsePort s).1 = some (pid, name))
    (hpath : (env.forceKillPortProcess || env.confirmKill) = true)
    (hkill : env.kill pid name = false) :
    handle_port_conflict env s = .ret false (some pid) := by
  simp [handle_port_conflict, resolveConflictAt, hprobe, hpath, hkill]

/-- C2 amended witness: the failed-kill scenario returns `(False, Some 500)`. -/
theorem kill_failure_returns_skipped_witness :
    handle_port_conflict failKillConflictEnv "1935" = .ret false (some 500) :=
  kill_failure_returns_skipped failKillConflictEnv "1935" 500 "OldServer"
    (by decide) (by decide) (by decide)

/-- C4: `kill_process_by_pid` refuses pid 0 on Windows, returning failure
without reaching the `p.kill()` call; treats an already-gone process
(`NoSuchProcess`) as success; and still returns success when the bounded exit
wait times out (the lingering process is only a warning). -/
theorem kill_process_by_pid_spec :
    (∀ (env : KillEnv) (name : String), env.platformSystem = "Windows" →
        kill_process_by_pid env 0 name = false ∧ killCallReached env 0 = false) ∧
      (∀ (env : KillEnv) (pid : Int) (name : String),
        (pid == 0 && env.platformSystem == "Windows") = false →
        env.processOf pid = .noSuchProcess →
        kill_process_by_pid env pid name = true) ∧
      (∀ (env : KillEnv) (pid : Int) (name : String),
        (pid == 0 && env.platformSystem == "Windows") = false →
        env.processOf pid = .ok → env.killCall pid = .ok →
        env.waitCall pid = .timeoutExpired →
        kill_process_by_pid env pid name = true) := by
  refine ⟨?_, ?_, ?_⟩
  · intro env name hw
    constructor <;> simp [kill_process_by_pid, killCallReached, hw]
  · intro env pid name hguard hproc
    simp [kill_process_by_pid, hguard, hproc]
  · intro env pid name hguard hproc hkill hwait
    simp [kill_process_by_pid, hguard, hproc, hkill, hwait]

/-- C4 witness: the three parts at concrete kill environments. -/
theorem kill_process_by_pid_spec_witness :
    (kill_process_by_pid lingerKillEnv 0 "idle" = false ∧
        killCallReached lingerKillEnv 0 = false) ∧
      kill_process_by_pid goneKillEnv 500 "OldServer" = true ∧
      kill_process_by_pid lingerKillEnv 500 "OldServer" = true :=
  ⟨kill_process_by_pid_spec.1 lingerKillEnv "idle" (by decide),
    kill_process_by_pid_spec.2.1 goneKillEnv 500 "OldServer" (by decide) (by decide),
    kill_process_by_pid_spec.2.2 lingerKillEnv 500 "OldServer" (by decide) (by decide)
      (by decide) (by decide)⟩

/-- A connection entry matches the probe query: local port equal to the
argument and listening state. -/
def connMatches (port : Int) (c : Conn) : Prop :=
  c.laddrPort = port ∧ c.status = CONN_LISTEN

/-- The owning process of a connection entry can be resolved (neither
vanished nor inaccessible). -/
def procResolves (env : ProbeEnv) (c : Conn) : Prop :=
  ∃ nm, env.proc c.pid = ProcLookup.ok nm

/-- The scan loop yields nothing when every entry either does not match the
query or has an unresolvable owner. -/
theorem findLoop_eq_none (env : ProbeEnv) (port : Int) :
    ∀ conns : List Conn, (∀ c ∈ conns, connMatches port c → ¬procResolves env c) →
      findLoop env port conns = none := by
  intro conns
  induction conns with
  | nil => intro _; rfl
  | cons c rest ih =>
    intro h
    unfold findLoop
    cases hb : (c.laddrPort == port && c.status == CONN_LISTEN) with
    | false => exact ih (fun c' hc' => h c' (List.mem_cons_of_mem c hc'))
    | true =>
      have hm : connMatches port c := by
        rw [Bool.and_eq_true, beq_iff_eq, beq_iff_eq] at hb
        exact ⟨hb.1, hb.2⟩
      cases hpr : env.proc c.pid with
      | ok nm => exact absurd ⟨nm, hpr⟩ (h c (List.mem_cons_self c rest) hm)
      | noSuchProcess => exact ih (fun c' hc' => h c' (List.mem_cons_of_mem c hc'))
      | accessDenied => exact ih (fun c' hc' => h c' (List.mem_cons_of_mem c hc'))

/-- The scan loop yields the first matching entry with a resolvable owner:
entries before it that match but whose owner vanished or is inaccessible are
skipped. -/
theorem findLoop_first (env : ProbeEnv) (port : Int) :
    ∀ (pre : List Conn) (c : Conn) (post : List Conn) (nm : String),
      (∀ c' ∈ pre, connMatches port c' → ¬procResolves env c') →
      connMatches port c → env.proc c.pid = ProcLookup.ok nm →
      findLoop env port (pre ++ c :: post) = some (c.pid, nm) := by
  intro pre
  induction pre with
  | nil =>
    intro c post nm _ hm hok
    rw [List.nil_append]
    have hb : (c.laddrPort == port && c.status == CONN_LISTEN) = true := by
      rw [Bool.and_eq_true, beq_iff_eq, beq_iff_eq]
      exact ⟨hm.1, hm.2⟩
    simp [findLoop, hb, hok]
  | cons p rest ih =>
    intro c post nm hpre hm hok
    have hrest : ∀ c' ∈ rest, connMatches port c' → ¬procResolves env c' :=
      fun c' hc' => hpre c' (List.mem_cons_of_mem p hc')
    rw [List.cons_append]
    cases hb : (p.laddrPort == port && p.status == CONN_LISTEN) with
    | false =>
      simp only [findLoop, hb, Bool.false_eq_true, if_false]
      exact ih c post nm hrest hm hok
    | true =>
      have hpm : connMatches port p := by
        rw [Bool.and_eq_true, beq_iff_eq, beq_iff_eq] at hb
        exact ⟨hb.1, hb.2⟩
      cases hpr : env.proc p.pid with
      | ok nm' => exact absurd ⟨nm', hpr⟩ (hpre p (List.mem_cons_self p rest) hpm)
      | noSuchProcess =>
        simp only [findLoop, hb, if_true, hpr]
        exact ih c post nm hrest hm hok
      | accessDenied =>
        simp only [findLoop, hb, if_true, hpr]
        exact ih c post nm hrest hm hok

/-- An occupied socket table: pid 400 listens on 1935 but its owner is
inaccessible, pid 450 holds a non-listening socket on 1935, pid 500 listens
on 1935 and resolves to `OldServer`. -/
def probeEnvEx : ProbeEnv :=
  { netConnections := some
      [⟨1935, "LISTEN", 400⟩, ⟨1935, "TIME_WAIT", 450⟩, ⟨1935, "LISTEN", 500⟩]
    proc := fun pid =>
      if pid == 400 then .accessDenied
      else if pid == 500 then .ok "OldServer"
      else .noSuchProcess }

/-- An empty socket table. -/
def emptyProbeEnv : ProbeEnv :=
  { netConnections := some [], proc := fun _ => .noSuchProcess }

/-- A probe environment whose enumeration call raises. -/
def errorProbeEnv : ProbeEnv :=
  { netConnections := none, proc := fun _ => .noSuchProcess }

/-- C5: `find_process_using_port` returns none when the socket enumeration
itself fails; returns none when no entry both matches the query and has a
resolvable owner; and returns the first matching entry whose owner resolves,
skipping earlier matching entries whose owner vanished or is
inaccessible. -/
theorem find_process_using_port_spec :
    (∀ (env : ProbeEnv) (port : Int), env.netConnections = none →
        find_process_using_port env port = none) ∧
      (∀ (env : ProbeEnv) (port : Int) (conns : List Conn),
        env.netConnections = some conns →
        (∀ c ∈ conns, connMatches port c → ¬procResolves env c) →
        find_process_using_port env port = none) ∧
      (∀ (env : ProbeEnv) (port : Int) (pre : List Conn) (c : Conn)
          (post : List Conn) (nm : String),
        0 < port → port ≤ 65535 →
        env.netConnections = some (pre ++ c :: post) →
        (∀ c' ∈ pre, connMatches port c' → ¬procResolves env c') →
        connMatches port c → env.proc c.pid = ProcLookup.ok nm →
        find_process_using_port env port = some (c.pid, nm)) := by
  refine ⟨?_, ?_, ?_⟩
  · intro env port h
    unfold find_process_using_port
    rw [h]
    split <;> rfl
  · intro env port conns h hnone
    unfold find_process_using_port
    rw [h]
    split
    · exact findLoop_eq_none env port conns hnone
    · rfl
  · intro env port pre c post nm h1 h2 h hpre hm hok
    unfold find_process_using_port
    rw [if_pos ⟨h1, h2⟩, h]
    exact findLoop_first env port pre c post nm hpre hm hok

/-- C5 witness: the three parts at concrete socket tables; in the occupied
table the inaccessible listener (pid 400) and the non-listening socket
(pid 450) are skipped in favour of pid 500. -/
theorem find_process_using_port_spec_witness :
    find_process_using_port errorProbeEnv 1935 = none ∧
      find_process_using_port emptyProbeEnv 1935 = none ∧
      find_process_using_port probeEnvEx 1935 = some (500, "OldServer") := by
  refine ⟨find_process_using_port_spec.1 errorProbeEnv 1935 rfl,
    find_process_using_port_spec.2.1 emptyProbeEnv 1935 [] rfl
      (fun c hc => absurd hc (List.not_mem_nil c)),
    find_process_using_port_spec.2.2 probeEnvEx 1935
      [⟨1935, "LISTEN", 400⟩, ⟨1935, "TIME_WAIT", 450⟩] ⟨1935, "LISTEN", 500⟩ [] "OldServer"
      (by decide) (by decide) rfl ?_ (by constructor <;> rfl) rfl⟩
  intro c' hc' hm
  rcases List.mem_cons.mp hc' with rfl | h450
  · rintro ⟨nm, hnm⟩
    exact ProcLookup.noConfusion hnm
  · rcases List.mem_cons.mp h450 with rfl | hnil
    · rcases hm with ⟨_, hst⟩
      exact absurd hst (by decide)
    · exact absurd hnil (List.not_mem_nil c')

/-- C7: with no device records at all the selector reports that no devices
were found and returns none; with exactly one selectable record (status token
`device`) and the auto-select-single policy on, it returns that device
immediately, independently of any prompt interaction (the conclusion holds
for every prompt environment, so the prompt is never consulted). -/
theorem select_empty_and_auto_single :
    (∀ (env : SelectEnv) (auto : Bool),
        select_device_from_list env [] auto = (.ret none, ["No devices found."])) ∧
      ∀ (env : SelectEnv) (devices : List Device) (d : Device),
        devices.filter (fun x => x.status == "device") = [d] →
        select_device_from_list env devices true =
          (.ret (some d), ["Auto-selecting: " ++ d.name]) := by
  refine ⟨fun env auto => rfl, fun env devices d h => ?_⟩
  cases devices with
  | nil => simp at h
  | cons x xs =>
    simp only [select_device_from_list, List.isEmpty_cons, Bool.false_eq_true,
      if_false, h]
    rfl

/-- C7 witness: one connected device, auto-select on. -/
theorem select_empty_and_auto_single_witness :
    select_device_from_list ⟨.interrupted⟩ [mkDevice "ABC123" "device"] true =
      (.ret (some (mkDevice "ABC123" "device")), ["Auto-selecting: Unknown"]) :=
  select_empty_and_auto_single.2 ⟨.interrupted⟩ [mkDevice "ABC123" "device"]
    (mkDevice "ABC123" "device") (by decide)

/-- A resolver environment in which the operator declines both the kill
prompt and the skip prompt while an occupant holds port 1935. -/
def declineConflictEnv : ConflictEnv :=
  { probe := fun port => if port == 1935 then some (500, "OldServer") else none
    forceKillPortProcess := false
    confirmKill := false
    confirmSkip := false
    kill := fun _ _ => false }

/-- C9: a `KeyboardInterrupt` at the device-selection prompt terminates the
program with exit status 0 (both with two or more selectable devices and with
a single selectable device when auto-select is off), whereas `exit_with_error`
— the single fatal-exit path, used in particular by the fatal outcome of the
resolver — presents the error, requires an acknowledgment keypress and exits
with status 1. -/
theorem interrupt_exit_zero_fatal_exit_one :
    (∀ (env : SelectEnv) (devices : List Device) (auto : Bool) (d1 d2 : Device)
        (t : List Device),
        devices.filter (fun x => x.status == "device") = d1 :: d2 :: t →
        env.promptEvent = .interrupted →
        (select_device_from_list env devices auto).1 = .exitProgram 0) ∧
      (∀ (env : SelectEnv) (devices : List Device) (d : Device),
        devices.filter (fun x => x.status == "device") = [d] →
        env.promptEvent = .interrupted →
        (select_device_from_list env devices false).1 = .exitProgram 0) ∧
      (∀ msg : String,
        exit_with_error msg = ⟨msg, true, 1⟩) ∧
      ∀ (env : ConflictEnv) (s : String) (e : ExitBehavior),
        handle_port_conflict env s = .fatal e →
        e.code = 1 ∧ e.awaitsKeypress = true := by
  refine ⟨?_, ?_, fun msg => rfl, ?_⟩
  · intro env devices auto d1 d2 t h hpe
    obtain ⟨pe⟩ := env
    cases hpe
    cases devices with
    | nil => simp at h
    | cons x xs =>
      simp only [select_device_from_list, List.isEmpty_cons, Bool.false_eq_true,
        if_false, h]
      rfl
  · intro env devices d h hpe
    obtain ⟨pe⟩ := env
    cases hpe
    cases devices with
    | nil => simp at h
    | cons x xs =>
      simp only [select_device_from_list, List.isEmpty_cons, Bool.false_eq_true,
        if_false, h]
      rfl
  · intro env s e h
    unfold handle_port_conflict resolveConflictAt at h
    rcases hp : env.probe (parsePort s).1 with _ | ⟨pid, name⟩ <;> rw [hp] at h <;>
      dsimp only at h
    · exact absurd h (by simp)
    · by_cases hk : (env.forceKillPortProcess || env.confirmKill) = true
      · rw [if_pos hk] at h
        cases hkill : env.kill pid name <;> rw [hkill] at h <;> exact absurd h (by simp)
      · rw [if_neg hk] at h
        by_cases hs : env.confirmSkip = true
        · rw [if_pos hs] at h
          exact absurd h (by simp)
        · rw [if_neg hs] at h
          injection h with he
          rw [← he]
          exact ⟨rfl, rfl⟩

/-- C9 witness: an interrupt with two connected devices exits with status 0,
and the fatal outcome of the decline-both scenario carries exit status 1 with
an acknowledgment keypress. -/
theorem interrupt_exit_zero_fatal_exit_one_witness :
    (select_device_from_list ⟨.interrupted⟩
        [mkDevice "A" "device", mkDevice "B" "device"] true).1 = .exitProgram 0 ∧
      (exit_with_error "Port 1935 conflict unresolved.").code = 1 ∧
      (exit_with_error "Port 1935 conflict unresolved.").awaitsKeypress = true :=
  ⟨interrupt_exit_zero_fatal_exit_one.1 ⟨.interrupted⟩
      [mkDevice "A" "device", mkDevice "B" "device"] true
      (mkDevice "A" "device") (mkDevice "B" "device") [] (by decide) rfl,
    interrupt_exit_zero_fatal_exit_one.2.2.2 declineConflictEnv "1935"
      (exit_with_error "Port 1935 conflict unresolved.") (by decide)⟩

/-- C8 counterexample: with the non-numeric configured port string `x`, the
server path valid, every health check failing, the spawn succeeding and both
resolver runs finding the port free, the post-spawn health re-check fails and
the resolver is re-run and returns — yet `start_mona_server` reports `False`
(a failure outcome), not the unconfirmed outcome `None` the claim requires:
the diagnostics after the re-run evaluate `int(config.rtmp_port)`, which
raises and is converted to `False` by the broad exception handler. -/
theorem start_mona_unconfirmed_counterexample :
    badPortMonaEnv.checkMona 1 = false ∧
      handle_port_conflict (badPortMonaEnv.cenv 1) badPortMonaEnv.rtmpPort =
        .ret true none ∧
      start_mona_server badPortMonaEnv = .ret (some false) := by
  refine ⟨by decide, by decide, by decide⟩

/-- C8 (amended): if the server-health check reports the server already
active, no new instance is spawned and success is reported (the conclusion
holds for every environment, in particular regardless of the spawn
behaviour); after a spawn, if the settle-delay health re-check still does not
detect the server, the resolver is re-run against the state observed at that
moment, and an unconfirmed outcome (`None`) is reported provided the re-run
resolver returns and the configured port string parses as an integer —
otherwise the int conversion in the diagnostics raises and failure is
reported. -/
theorem start_mona_server_spec :
    (∀ env : MonaEnv, env.checkMona 0 = true →
        start_mona_server env = .ret (some true)) ∧
      ∀ (env : MonaEnv) (occ0 : Option Int) (b1 : Bool) (occ1 : Option Int)
          (p : Int),
        env.checkMona 0 = false → env.monaPathValid = true →
        handle_port_conflict (env.cenv 0) env.rtmpPort = .ret true occ0 →
        env.spawnOk = true → env.checkMona 1 = false →
        handle_port_conflict (env.cenv 1) env.rtmpPort = .ret b1 occ1 →
        pyInt? env.rtmpPort = some p →
        start_mona_server env = .ret none := by
  refine ⟨fun env h => by simp [start_mona_server, h], ?_⟩
  intro env occ0 b1 occ1 p hc0 hpath h0 hspawn hc1 h1 hpy
  simp [start_mona_server, hc0, hpath, h0, hspawn, hc1, h1, hpy]

/-- C8 amended witness: the numeric-port scenario reports the unconfirmed
outcome, and a scenario whose first health check succeeds reports success. -/
theorem start_mona_server_spec_witness :
    start_mona_server
        { rtmpPort := "1935", monaPathValid := false,
          checkMona := fun _ => true, cenv := fun _ => freeConflictEnv,
          spawnOk := false } = .ret (some true) ∧
      start_mona_server goodPortMonaEnv = .ret none :=
  ⟨start_mona_server_spec.1 _ rfl,
    start_mona_server_spec.2 goodPortMonaEnv none true none 1935
      rfl rfl (by decide) rfl rfl (by decide) (by decide)⟩

end RTMP
